import Mathlib

set_option maxHeartbeats 1000000
set_option maxRecDepth 4000

/-
Verification of the client-side task-queue / agent-status coordinator of the
agent-dubbing repository.  The embedding below is translated from
src/unnamed/part_002 (class AgentManager, class BaseAgent and its four
subclasses) and, where noted, from src/frontend/js/agents.js and from
AppController.renderAnalysisTaskList / renderAnalysisLogs in
src/unnamed/part_005.

Modelling conventions:
- JavaScript strings, numbers and absent object fields are modelled with
  String, Nat/Int and Option.
- The JS Map (activeTasks) is an association list whose `set` replaces an
  existing key in place and otherwise appends, matching insertion-ordered
  iteration of a JS Map; keys stay unique because `set` never duplicates.
- The cooperative event-loop of the browser is modelled as a list of events
  (timer callbacks) folded over the state: each event is one callback body,
  which runs to completion, exactly as in the single-threaded model.
- Wall-clock values (Date.now) and Math.random outputs are parameters of the
  events that use them.
- Log timestamps (new Date().toLocaleString()) are omitted from log entries:
  they are environment noise used by no property checked here.
- Object aliasing between the queue, the active map and agent.currentTask is
  not modelled (entries hold copies); no claim below depends on aliasing.
-/

namespace AgentSim

/-- The four agents constructed in AgentManager.constructor (part_002 lines
10-15): data, analysis, visualization, report. -/
inductive AgentId where
  | data
  | analysis
  | visualization
  | report
deriving DecidableEq, Repr

/-- Insertion order of the agents object, which is the iteration order of
Object.keys / Object.entries and of the agentStatus Map (part_002 lines 10-15,
24-26, 43, 61). -/
def agentIds : List AgentId :=
  [AgentId.data, AgentId.analysis, AgentId.visualization, AgentId.report]

/-- A task object (part_002: objects passed to addTask, plus the fields the
coordinator writes: id set in addTask line 94, status written only at line 126,
progress written at line 120).  `status := none` models the field being absent
(undefined) on a freshly enqueued task. -/
structure Task where
  id : String
  name : String
  type : String
  priority : String
  status : Option String
  progress : Nat
deriving DecidableEq, Repr

/-- The caller-supplied part of a task, before addTask assigns the id
(part_002 lines 196-214, 216-243). -/
structure TaskInput where
  name : String
  type : String
  priority : String
deriving DecidableEq, Repr

/-- One entry of BaseAgent.logs (part_002 line 408); the wall-clock timestamp
is omitted (environment noise, unused by every claim). -/
structure LogEntry where
  message : String
  level : String
deriving DecidableEq, Repr

/-- BaseAgent fields (part_002 lines 367-375). -/
structure Agent where
  name : String
  capabilities : List String
  status : String
  currentTask : Option Task
  progress : Nat
  logs : List LogEntry
deriving DecidableEq, Repr

/-- One value of the activeTasks Map: { agentId, task, startTime }
(part_002 line 84). -/
structure ActiveInfo where
  agentId : AgentId
  task : Task
  startTime : Nat
deriving DecidableEq, Repr

/-- A JavaScript value, as far as trackTaskProgress needs one: the watcher
reads properties off the value stored in the agentStatus Map, which is a plain
status string (part_002 lines 45, 110). -/
inductive JSVal where
  | undef
  | str (s : String)
  | num (n : Int)
deriving DecidableEq, Repr

/-- Property access on a JS value.  A string primitive has a length property;
every other property access on a string (in particular .status and .progress,
part_002 lines 120, 123) yields undefined.  Property access on numbers and on
undefined is never performed by the embedded code. -/
def getProp (v : JSVal) (name : String) : JSVal :=
  match v with
  | JSVal.str s => if name = "length" then JSVal.num s.length else JSVal.undef
  | _ => JSVal.undef

/-- JS falsiness of a value, used for the `!statusInfo` guard
(part_002 line 113). -/
def jsFalsy : JSVal → Bool
  | JSVal.undef => true
  | JSVal.str s => s.isEmpty
  | JSVal.num n => n == 0

/-- Models `v || 0` followed by storage into a progress field
(part_002 line 120): undefined (and any falsy value) becomes 0. -/
def jsNumOrZero : JSVal → Nat
  | JSVal.num n => n.toNat
  | _ => 0

/-- JS Map.get on the activeTasks map (part_002 line 111). -/
def mapGet (m : List (String × ActiveInfo)) (k : String) : Option ActiveInfo :=
  (m.find? (fun p => p.1 == k)).map Prod.snd

/-- JS Map.set on the activeTasks map (part_002 line 84): replace in place when
the key is present, append otherwise. -/
def mapSet (m : List (String × ActiveInfo)) (k : String) (v : ActiveInfo) :
    List (String × ActiveInfo) :=
  if m.any (fun p => p.1 == k) then
    m.map (fun p => if p.1 == k then (k, v) else p)
  else m ++ [(k, v)]

/-- JS Map.delete on the activeTasks map (part_002 line 125). -/
def mapDelete (m : List (String × ActiveInfo)) (k : String) :
    List (String × ActiveInfo) :=
  m.filter (fun p => !(p.1 == k))

/-- The mutable state of the AgentManager singleton (part_002 lines 9-19):
the four agent objects, the pending taskQueue array, the activeTasks Map and
the agentStatus mirror Map.  completedTasks is an observation ghost: it
records every task object whose status field the coordinator sets to
Completed (part_002 line 126), which is otherwise visible only through the UI
and the completion notification. -/
structure MgrState where
  agents : AgentId → Agent
  taskQueue : List Task
  activeTasks : List (String × ActiveInfo)
  agentStatus : AgentId → String
  completedTasks : List Task

/-- DataAgent constructor (part_002 lines 432-437): capabilities and an
explicit status override to online. -/
def dataAgentInit : Agent :=
  { name := "DataAgent"
    capabilities := ["data_processing", "data_cleaning", "data_validation"]
    status := "online", currentTask := none, progress := 0, logs := [] }

/-- AnalysisAgent constructor (part_002 lines 554-558). -/
def analysisAgentInit : Agent :=
  { name := "AnalysisAgent"
    capabilities := ["analysis", "statistical_analysis", "trend_analysis"]
    status := "online", currentTask := none, progress := 0, logs := [] }

/-- VisualizationAgent constructor (part_002 lines 581-585). -/
def visualizationAgentInit : Agent :=
  { name := "VisualizationAgent"
    capabilities := ["visualization", "chart_generation", "dashboard_update"]
    status := "online", currentTask := none, progress := 0, logs := [] }

/-- ReportAgent constructor (part_002 lines 608-612): unlike the other three
subclasses it leaves the BaseAgent status at offline. -/
def reportAgentInit : Agent :=
  { name := "ReportAgent"
    capabilities := ["report_generation", "document_creation", "export"]
    status := "offline", currentTask := none, progress := 0, logs := [] }

/-- The agents object right after the four constructors ran. -/
def initAgents : AgentId → Agent
  | AgentId.data => dataAgentInit
  | AgentId.analysis => analysisAgentInit
  | AgentId.visualization => visualizationAgentInit
  | AgentId.report => reportAgentInit

/-- The AgentManager state after constructor + init (part_002 lines 9-33) but
before the constructor seeds the three initial tasks (lines 195-214): empty queue and
active map, every agentStatus mirror entry set to offline (lines 24-26).  The
three initial seeding addTask calls (lines 195-214) are the first three events
of a real run. -/
def baseState : MgrState :=
  { agents := initAgents
    taskQueue := []
    activeTasks := []
    agentStatus := fun _ => "offline"
    completedTasks := [] }

/-- BaseAgent.canHandleTask (part_002 lines 381-383, and identically
src/frontend/js/agents.js lines 225-227):
`this.capabilities.includes(task.type)` and a strict equality of the status with online. -/
def canHandleTask (a : Agent) (t : Task) : Bool :=
  a.capabilities.contains t.type && a.status == "online"

/-- BaseAgent.log (part_002 lines 406-410) without the wall-clock timestamp. -/
def agentLog (a : Agent) (message level : String) : Agent :=
  { a with logs := a.logs ++ [{ message := message, level := level }] }

/-- Point update of one agent object. -/
def updAgent (aid : AgentId) (f : Agent → Agent) (s : MgrState) : MgrState :=
  { s with agents := fun x => if x = aid then f (s.agents x) else s.agents x }

/-- The synchronous prefix of BaseAgent.executeTask (part_002 lines 386-390):
status busy, currentTask set, progress 0, Starting log entry. -/
def startPhase (a : Agent) (t : Task) : Agent :=
  agentLog { a with status := "busy", currentTask := some t, progress := 0 }
    ("Starting task: " ++ t.name) "info"

/-- BaseAgent.executeTask (part_002 lines 385-404) as one function.
`perform` is the simulated step sequence (performTask override): it may
mutate the agent and returns `some msg` when it throws with message msg.
Every performTask override (lines 523-527, 560-564, 587-591, 614-618) writes
only agent fields, never task fields, so the task is returned unchanged. -/
def executeTask (a : Agent) (t : Task) (perform : Agent → Agent × Option String) :
    Agent × Task :=
  match perform (startPhase a t) with
  | (a2, none) =>
    ({ agentLog a2 ("Completed task: " ++ t.name) "info" with
        status := "online", progress := 100, currentTask := none }, t)
  | (a2, some msg) =>
    ({ agentLog a2 ("Failed task: " ++ t.name ++ " - " ++ msg) "error" with
        status := "online", progress := 0, currentTask := none }, t)

/-- The part of executeTask that runs inside the assignTask callback, before
the first await suspends the rest (part_002 lines 386-390). -/
def executeTaskStart (aid : AgentId) (t : Task) (s : MgrState) : MgrState :=
  updAgent aid (fun a => startPhase a t) s

/-- The event-loop completion of a pending executeTask call (part_002 lines
392-403): the continuation after performTask either resolves or rejects.  It
exists exactly while currentTask is set (set at line 387, cleared at line
403); with no pending execution the event is a no-op.  The thrown error
message is omitted from the Failed log entry here; the standalone executeTask
function above keeps it. -/
def execFinish (aid : AgentId) (ok : Bool) (s : MgrState) : MgrState :=
  match (s.agents aid).currentTask with
  | none => s
  | some t =>
    updAgent aid (fun a =>
      if ok then
        { agentLog a ("Completed task: " ++ t.name) "info" with
            status := "online", progress := 100, currentTask := none }
      else
        { agentLog a ("Failed task: " ++ t.name) "error" with
            status := "online", progress := 0, currentTask := none }) s

/-- AgentManager.updateAgentStatuses (part_002 lines 42-48): copy every live
agent status into the agentStatus mirror Map. -/
def updateAgentStatuses (s : MgrState) : MgrState :=
  { s with agentStatus := fun aid => (s.agents aid).status }

/-- The online agents in mirror order (part_002 lines 61-63): the entries of
the agentStatus Map whose value is online. -/
def availableAgents (s : MgrState) : List AgentId :=
  agentIds.filter (fun aid => s.agentStatus aid == "online")

/-- AgentManager.selectBestAgent (part_002 lines 75-79):
availableAgents[Math.floor(Math.random() * length)].  The random draw is the
parameter r, reduced mod the length; the default value is never used because
the caller checks the list is nonempty. -/
def dispatchPick (r : Nat) (s : MgrState) : AgentId :=
  (availableAgents s).getD (r % (availableAgents s).length) AgentId.data

/-- AgentManager.assignTask (part_002 lines 81-91): re-check canHandleTask on
the live agent object; on success record the active entry and start the
execution; on failure do nothing (the task, already shifted off the queue by
the caller, is silently dropped).  `agent &&` is always truthy: the four agent
ids all map to constructed agents. -/
def assignTask (aid : AgentId) (task : Task) (now : Nat) (s : MgrState) :
    MgrState :=
  if canHandleTask (s.agents aid) task then
    let info : ActiveInfo := { agentId := aid, task := task, startTime := now }
    executeTaskStart aid task
      { s with activeTasks := mapSet s.activeTasks task.id info }
  else s

/-- Fallback head value; unreachable because processTaskQueue checks the queue
is nonempty before shifting. -/
def defaultTask : Task :=
  { id := "", name := "", type := "", priority := "", status := none, progress := 0 }

/-- AgentManager.processTaskQueue (part_002 lines 58-73): return if the queue
is empty; compute the online agents from the mirror Map and return if none;
otherwise shift the head task, pick a random available agent (capability
blind) and attempt assignment. -/
def processTaskQueue (r now : Nat) (s : MgrState) : MgrState :=
  if s.taskQueue.isEmpty then s
  else if (availableAgents s).isEmpty then s
  else
    assignTask (dispatchPick r s) (s.taskQueue.headD defaultTask) now
      { s with taskQueue := s.taskQueue.tail }

/-- AgentManager.generateTaskId (part_002 lines 101-103, identically
agents.js lines 94-96): task_ + Date.now() + _ + random base36 suffix.
now is the Date.now() value, rand the random suffix. -/
def generateTaskId (now : Nat) (rand : String) : String :=
  "task_" ++ toString now ++ "_" ++ rand

/-- The task object as it sits in the queue right after addTask assigned the
id (part_002 line 94). -/
def mkTask (tin : TaskInput) (id : String) : Task :=
  { id := id, name := tin.name, type := tin.type, priority := tin.priority
    status := none, progress := 0 }

/-- The enqueue part of addTask (part_002 lines 94-95): assign the generated
id and push to the end of the pending queue. -/
def enqueueTask (tin : TaskInput) (now : Nat) (rand : String) (s : MgrState) :
    MgrState :=
  { s with taskQueue := s.taskQueue ++ [mkTask tin (generateTaskId now rand)] }

/-- AgentManager.addTask (part_002 lines 93-99): assign id, push, update the
UI, show a notification, and run processTaskQueue in the same call. -/
def addTask (tin : TaskInput) (now : Nat) (rand : String) (r : Nat)
    (s : MgrState) : MgrState :=
  processTaskQueue r now (enqueueTask tin now rand s)

/-- AgentManager.addTask of src/frontend/js/agents.js (lines 88-92): assign
id, push, update the UI - and nothing else; in particular no processTaskQueue
call. -/
def frontendAddTask (tin : TaskInput) (now : Nat) (rand : String)
    (s : MgrState) : MgrState :=
  { s with taskQueue := s.taskQueue ++ [mkTask tin (generateTaskId now rand)] }

/-- One tick of the per-task progress watcher started by
AgentManager.trackTaskProgress (part_002 lines 105-152).  statusInfo is the
value stored in the agentStatus Map: a plain status string (line 45), wrapped
here as a JS value so that the property accesses of lines 120 and 123 are
modelled exactly.  The tick: stop if statusInfo or taskInfo is falsy/absent;
copy statusInfo.progress || 0 into the task; if statusInfo.status === idle or
statusInfo.progress === 100, stop, delete the entry and mark the task
Completed (recorded in the completedTasks ghost). -/
def watcherTick (taskId : String) (aid : AgentId) (s : MgrState) : MgrState :=
  let statusInfo := JSVal.str (s.agentStatus aid)
  match mapGet s.activeTasks taskId with
  | none => s
  | some info =>
    if jsFalsy statusInfo then s
    else
      let info1 := { info with
        task := { info.task with
          progress := jsNumOrZero (getProp statusInfo "progress") } }
      let s1 := { s with activeTasks := mapSet s.activeTasks taskId info1 }
      if (getProp statusInfo "status" == JSVal.str "idle")
          || (getProp statusInfo "progress" == JSVal.num 100) then
        { s1 with
            activeTasks := mapDelete s1.activeTasks taskId
            completedTasks := s1.completedTasks
              ++ [{ info1.task with status := some "Completed" }] }
      else s1

/-- One event of the cooperative event loop: an addTask call, one tick of the
2-second monitoring interval (updateAgentStatuses then processTaskQueue,
part_002 lines 35-40), one tick of a progress watcher, or the completion of a
pending executeTask. -/
inductive Ev where
  | add (tin : TaskInput) (now : Nat) (rand : String) (r : Nat)
  | tick (r : Nat) (now : Nat)
  | watch (taskId : String) (aid : AgentId)
  | finish (aid : AgentId) (ok : Bool)

/-- The state transformer of one event. -/
def stepEv (e : Ev) (s : MgrState) : MgrState :=
  match e with
  | Ev.add tin now rand r => addTask tin now rand r s
  | Ev.tick r now => processTaskQueue r now (updateAgentStatuses s)
  | Ev.watch tid aid => watcherTick tid aid s
  | Ev.finish aid ok => execFinish aid ok s

/-- Run a sequence of event-loop callbacks. -/
def runEvents (evs : List Ev) (s : MgrState) : MgrState :=
  evs.foldl (fun st e => stepEv e st) s

/-- A state is reachable when some sequence of event-loop callbacks produces
it from the post-constructor state. -/
def Reachable (s : MgrState) : Prop :=
  ∃ evs, runEvents evs baseState = s

/-- The ids of the pending queue. -/
def pendingIds (s : MgrState) : List String :=
  s.taskQueue.map Task.id

/-- The keys of the activeTasks Map. -/
def activeKeys (s : MgrState) : List String :=
  s.activeTasks.map Prod.fst

/-- All task ids the coordinator currently holds. -/
def allIds (s : MgrState) : List String :=
  pendingIds s ++ activeKeys s

/-- No task id occurs twice across the pending queue and the active map. -/
def NodupIds (s : MgrState) : Prop :=
  (allIds s).Nodup

/-- Freshness of the id an add event would generate in state s: the spec
declares generated ids unique (time plus random suffix, negligible collision
probability), which the code cannot guarantee by itself. -/
def freshOk (e : Ev) (s : MgrState) : Bool :=
  match e with
  | Ev.add _ now rand _ => !((allIds s).contains (generateTaskId now rand))
  | _ => true

/-- Every add event of the run generates an id unused at the moment it runs. -/
def freshRun : MgrState → List Ev → Bool
  | _, [] => true
  | s, e :: rest => freshOk e s && freshRun (stepEv e s) rest

/-
Status-poll render step (src/unnamed/part_005, AppController).  The poll
handlers fetch server data and pass it to renderAnalysisTaskList (lines
984-1044) and renderAnalysisLogs (lines 1046-1081), which rebuild the
container HTML from the data alone and overwrite container.innerHTML.  The
displayed state of a container is its innerHTML string, Option-wrapped: none
models document.getElementById returning null (the early-return guard).
-/

/-- The parameters bag of a task item of GET /api/tasks, as far as the
renderer reads it (part_005 lines 1001-1002). -/
structure ApiTaskParams where
  dataset_type : Option String
  cleaned_file : Option String
  input_file : Option String
deriving DecidableEq, Repr

/-- One task item of the /api/tasks response (part_005 lines 993-1012). -/
structure ApiTask where
  id : String
  type : String
  parameters : Option ApiTaskParams
deriving DecidableEq, Repr

/-- The /api/tasks response body (part_005 lines 993-998). -/
structure ApiTaskData where
  active : List ApiTask
  queued : List ApiTask
  completed : List ApiTask
deriving DecidableEq, Repr

/-- One log item rendered by renderAnalysisLogs (part_005 lines 1070-1078).
The locale time formatting of the timestamp is a pure function of the
timestamp string and is modelled as the string itself. -/
structure ApiLog where
  timestamp : String
  level : Option String
  message : String
deriving DecidableEq, Repr

/-- JS truthiness of an optional string field: absent and empty are falsy. -/
def jsTruthyStr : Option String → Bool
  | none => false
  | some s => !s.isEmpty

/-- task.parameters?.dataset_type (part_005 line 1001). -/
def pDataset (t : ApiTask) : Option String :=
  t.parameters.bind ApiTaskParams.dataset_type

/-- task.parameters?.cleaned_file (part_005 line 1002). -/
def pCleaned (t : ApiTask) : Option String :=
  t.parameters.bind ApiTaskParams.cleaned_file

/-- task.parameters?.input_file (part_005 line 1002). -/
def pInput (t : ApiTask) : Option String :=
  t.parameters.bind ApiTaskParams.input_file

/-- The task types the analysis panel shows (part_005 lines 993-996). -/
def analysisTaskTypes : List String := ["statistical_analysis", "chart_generation"]

/-- Filter predicate of the three task lists (part_005 lines 993-996). -/
def isAnalysisType (t : ApiTask) : Bool :=
  analysisTaskTypes.contains t.type

/-- The renderTask closure (part_005 lines 1000-1012), template whitespace
collapsed. -/
def renderTaskHTML (task : ApiTask) (statusLabel badgeCss : String) : String :=
  let datasetLabel :=
    if jsTruthyStr (pDataset task) then
      "<span class=\"badge bg-secondary ms-2\">" ++ (pDataset task).getD ""
        ++ "</span>"
    else ""
  let description :=
    if jsTruthyStr (pCleaned task) then (pCleaned task).getD ""
    else if jsTruthyStr (pInput task) then (pInput task).getD ""
    else task.id
  "<li class=\"list-group-item bg-dark d-flex justify-content-between align-items-start\"><div class=\"me-3\"><div><strong>"
    ++ task.type ++ "</strong>" ++ datasetLabel
    ++ "</div><small class=\"text-muted\">" ++ description
    ++ "</small></div><span class=\"badge " ++ badgeCss ++ "\">" ++ statusLabel
    ++ "</span></li>"

/-- The innerHTML that renderAnalysisTaskList computes from the server data
(part_005 lines 988-1043): the warning paragraph when the data is missing,
otherwise the Active / Queued (first 5) / Recently Completed (last 5,
reversed) sections, or the placeholder paragraph when all are empty. -/
def taskListHTML (d : Option ApiTaskData) : String :=
  match d with
  | none => "<p class=\"text-warning mb-0\">Unable to load task queue.</p>"
  | some td =>
    let activeTasks := td.active.filter isAnalysisType
    let queuedTasks := td.queued.filter isAnalysisType
    let completedAll := td.completed.filter isAnalysisType
    let completedTasks := (completedAll.drop (completedAll.length - 5)).reverse
    let sections :=
      (if activeTasks.isEmpty then [] else
        ["<h6 class=\"text-info\">Active</h6><ul class=\"list-group list-group-flush mb-3\">"
          ++ String.join (activeTasks.map
              (fun t => renderTaskHTML t "In Progress" "bg-info"))
          ++ "</ul>"])
      ++ (if queuedTasks.isEmpty then [] else
        ["<h6 class=\"text-warning\">Queued</h6><ul class=\"list-group list-group-flush mb-3\">"
          ++ String.join ((queuedTasks.take 5).map
              (fun t => renderTaskHTML t "Queued" "bg-warning text-dark"))
          ++ "</ul>"])
      ++ (if completedTasks.isEmpty then [] else
        ["<h6 class=\"text-success\">Recently Completed</h6><ul class=\"list-group list-group-flush\">"
          ++ String.join (completedTasks.map
              (fun t => renderTaskHTML t "Done" "bg-success"))
          ++ "</ul>"])
    if sections.isEmpty then
      "<p class=\"text-muted mb-0\">No analysis tasks at the moment.</p>"
    else String.join sections

/-- AppController.renderAnalysisTaskList (part_005 lines 984-1044) as a step
on the displayed state: when the container exists its innerHTML is overwritten
with the HTML computed from the data; a missing container stays missing. -/
def renderAnalysisTaskList (d : Option ApiTaskData) (container : Option String) :
    Option String :=
  container.map (fun _ => taskListHTML d)

/-- The levelClass closure (part_005 lines 1055-1066):
(level || info).toLowerCase() mapped to a css class. -/
def levelCss (level : Option String) : String :=
  let l := (if jsTruthyStr level then level.getD "" else "info").toLower
  if l = "error" then "text-danger"
  else if l = "warning" then "text-warning"
  else if l = "success" then "text-success"
  else "text-info"

/-- One log list item (part_005 lines 1070-1078), template whitespace
collapsed. -/
def logItemHTML (log : ApiLog) : String :=
  "<li class=\"mb-2\"><div class=\"d-flex justify-content-between\"><small class=\"text-muted\">"
    ++ log.timestamp ++ "</small><small class=\"" ++ levelCss log.level ++ "\">"
    ++ (if jsTruthyStr log.level then (log.level.getD "").toUpper else "INFO")
    ++ "</small></div><div>" ++ log.message ++ "</div></li>"

/-- The innerHTML that renderAnalysisLogs computes (part_005 lines 1050-1080):
placeholder when logs are missing or empty, otherwise the last 10 log items,
newest first. -/
def logsHTML (logs : Option (List ApiLog)) : String :=
  match logs with
  | none => "<p class=\"text-muted mb-0\">No recent logs.</p>"
  | some ls =>
    if ls.isEmpty then "<p class=\"text-muted mb-0\">No recent logs.</p>"
    else
      "<ul class=\"list-unstyled mb-0\">"
        ++ String.join (((ls.drop (ls.length - 10)).reverse).map logItemHTML)
        ++ "</ul>"

/-- AppController.renderAnalysisLogs (part_005 lines 1046-1081) as a step on
the displayed state: overwrite the container innerHTML with the HTML computed
from the logs. -/
def renderAnalysisLogs (logs : Option (List ApiLog)) (container : Option String) :
    Option String :=
  container.map (fun _ => logsHTML logs)

/-
Concrete runs used as inputs of the claim theorems.  Each run starts with the
three queue-seeding addTask calls of the constructor (part_002 lines 195-214); the
Date.now and Math.random environment values are fixed small constants.
-/

/-- The three queue-seeding addTask calls of the constructor (part_002 lines 195-214),
with environment values 1/a, 2/b, 3/c; the dispatch attempts inside them
no-op because every agentStatus mirror entry is still offline. -/
def initAdds : List Ev :=
  [Ev.add ⟨"Process Thesis Data", "data_processing", "high"⟩ 1 "a" 0,
   Ev.add ⟨"Generate Visualizations", "visualization", "medium"⟩ 2 "b" 0,
   Ev.add ⟨"Create Analysis Report", "report_generation", "low"⟩ 3 "c" 0]

/-- A run in which the monitoring tick dispatches Process Thesis Data
(id task_1_a) to the data agent, the execution completes (agent back online,
progress 100), and then one progress-watcher tick for the task runs. -/
def c1Trace : List Ev :=
  initAdds ++
    [Ev.tick 0 10, Ev.finish AgentId.data true,
     Ev.watch "task_1_a" AgentId.data]

/-- The state after the run of c1Trace. -/
def c1Final : MgrState := runEvents c1Trace baseState

/-- A run in which the data agent finishes task_1_a (whose active entry is
never removed), the visualization task is dispatched elsewhere, the report
task is dropped, and a later addTask dispatch hands the again-online data
agent a second task task_40_d. -/
def c6Trace : List Ev :=
  initAdds ++
    [Ev.tick 0 10, Ev.finish AgentId.data true,
     Ev.tick 2 20, Ev.tick 0 30,
     Ev.add ⟨"Process More Data", "data_processing", "high"⟩ 40 "d" 0]

/-- The state after the run of c6Trace. -/
def c6Final : MgrState := runEvents c6Trace baseState

/-- A run for the FIFO scenario premise in which every dispatch picks a
capability-mismatched agent: the three initial tasks are dequeued and dropped
by ticks, then three analysis-type tasks are enqueued while the analysis agent
(the only online agent supporting analysis) is online, and each
enqueue-triggered dispatch picks the data agent, which fails the canHandle
re-check, silently dropping the task. -/
def c8BadTrace : List Ev :=
  initAdds ++
    [Ev.tick 1 10, Ev.tick 0 12, Ev.tick 0 14,
     Ev.add ⟨"An1", "analysis", "high"⟩ 20 "x" 0,
     Ev.add ⟨"An2", "analysis", "high"⟩ 21 "y" 0,
     Ev.add ⟨"An3", "analysis", "high"⟩ 22 "z" 0]

/-- The state after the run of c8BadTrace. -/
def c8BadFinal : MgrState := runEvents c8BadTrace baseState

/-- The three analysis-type tasks of the FIFO scenario, enqueued while the
agentStatus mirror lists no online agent, so every enqueue-triggered dispatch
no-ops and the tasks wait in FIFO order. -/
def c8Adds : List Ev :=
  [Ev.add ⟨"An1", "analysis", "high"⟩ 4 "d" 0,
   Ev.add ⟨"An2", "analysis", "high"⟩ 5 "e" 0,
   Ev.add ⟨"An3", "analysis", "high"⟩ 6 "f" 0]

/-- FIFO scenario, serving trace part 1: the initial three tasks occupy the
data and visualization agents (the report task is dropped), then the first
periodic cycle with only the analysis agent eligible serves An1. -/
def c8Trace1 : List Ev :=
  initAdds ++ c8Adds ++
    [Ev.tick 0 10, Ev.tick 1 12, Ev.tick 0 14, Ev.tick 0 16]

/-- FIFO scenario part 2: one more periodic cycle while every agent is busy;
nothing is dequeued. -/
def c8Trace2 : List Ev := c8Trace1 ++ [Ev.tick 0 18]

/-- FIFO scenario part 3: An1 finishes and the next periodic cycle serves
An2. -/
def c8Trace3 : List Ev :=
  c8Trace2 ++ [Ev.finish AgentId.analysis true, Ev.tick 0 20]

/-- FIFO scenario part 4: An2 finishes and the next periodic cycle serves
An3. -/
def c8Trace4 : List Ev :=
  c8Trace3 ++ [Ev.finish AgentId.analysis true, Ev.tick 0 22]

/-- The FIFO scenario states after each part. -/
def c8S1 : MgrState := runEvents c8Trace1 baseState

/-- State after c8Trace2. -/
def c8S2 : MgrState := runEvents c8Trace2 baseState

/-- State after c8Trace3. -/
def c8S3 : MgrState := runEvents c8Trace3 baseState

/-- State after c8Trace4. -/
def c8S4 : MgrState := runEvents c8Trace4 baseState

/-- The first, second and third analysis tasks of the FIFO scenario as they
sit in the queue. -/
def c8TaskAn1 : Task := mkTask ⟨"An1", "analysis", "high"⟩ (generateTaskId 4 "d")

/-- Second FIFO scenario task. -/
def c8TaskAn2 : Task := mkTask ⟨"An2", "analysis", "high"⟩ (generateTaskId 5 "e")

/-- Third FIFO scenario task. -/
def c8TaskAn3 : Task := mkTask ⟨"An3", "analysis", "high"⟩ (generateTaskId 6 "f")

/-- A pending analysis-type task used by the C2 witness: the only online
mirror entry is the data agent, which cannot handle analysis. -/
def c2Task : Task :=
  { id := "task_9_q", name := "T1", type := "analysis", priority := "high"
    status := none, progress := 0 }

/-- A state whose queue holds c2Task while the mirror lists only the data
agent online. -/
def c2DemoState : MgrState :=
  { baseState with
      taskQueue := [c2Task]
      agentStatus := fun aid => if aid = AgentId.data then "online" else "offline" }

/-- A task whose simulated step sequence will throw, for the C4 input. -/
def c4Task : Task :=
  { id := "task_7_g", name := "Perform Statistical Analysis", type := "analysis"
    priority := "high", status := none, progress := 0 }

/-- A performTask override that throws immediately with message boom. -/
def c4Perform : Agent → Agent × Option String := fun a => (a, some "boom")

/-- The caller-supplied task used by the C7 counterexample. -/
def c7Tin : TaskInput := ⟨"Process Thesis Data", "data_processing", "high"⟩

/-- A state with an empty queue whose mirror lists the data agent online: an
enqueue here finds an eligible, capable agent. -/
def c7State : MgrState :=
  { baseState with
      agentStatus := fun aid => if aid = AgentId.data then "online" else "offline" }

/-- A report_generation task used by the C10 witness. -/
def c10Task : Task :=
  mkTask ⟨"Generate Final Report", "report_generation", "medium"⟩ "task_8_h"

/-- A short reachable run used by the C10 witness. -/
def c10DemoEvs : List Ev := initAdds ++ [Ev.tick 0 10]

end AgentSim

namespace AgentSim

theorem assignTask_taskQueue (aid : AgentId) (task : Task) (now : Nat)
    (s : MgrState) : (assignTask aid task now s).taskQueue = s.taskQueue := by
  unfold assignTask executeTaskStart updAgent
  split <;> rfl

theorem assignTask_of_cannot (aid : AgentId) (task : Task) (now : Nat)
    (s : MgrState) (h : canHandleTask (s.agents aid) task = false) :
    assignTask aid task now s = s := by
  unfold assignTask
  simp [h]

/-- C3: canHandleTask (part_002 lines 381-383 and agents.js lines 225-227) is
a pure predicate that holds iff the task type is among the agent capabilities
and the agent status is online; in particular it is false whenever the status
is not online, capability match or not.  Purity is by construction: the
embedding of the source expression is a function of the two records alone. -/
theorem c3_canHandle_iff :
    (∀ a t, canHandleTask a t = true ↔
      (t.type ∈ a.capabilities ∧ a.status = "online")) ∧
    (∀ a t, a.status ≠ "online" → canHandleTask a t = false) := by
  constructor
  · intro a t
    simp [canHandleTask]
  · intro a t h
    simp [canHandleTask, h]

/-- Witness for C3: the report agent carries the report_generation capability
but its status is offline, and canHandleTask is false. -/
theorem c3_canHandle_iff_witness :
    canHandleTask reportAgentInit c10Task = false :=
  c3_canHandle_iff.2 reportAgentInit c10Task (by decide)

/-- C2: when the canHandle re-check of assignTask fails (part_002 lines
81-91), the coordinator state is left entirely unchanged by assignTask, and
the dispatch cycle that shifted the task (lines 58-73) ends with the task
gone from the queue, never inserted into the active map, and no agent
touched: the whole state is the old one minus the dequeued head. -/
theorem c2_failed_recheck_drops :
    (∀ aid task now s, canHandleTask (s.agents aid) task = false →
      assignTask aid task now s = s) ∧
    (∀ r now s task rest, s.taskQueue = task :: rest →
      availableAgents s ≠ [] →
      canHandleTask (s.agents (dispatchPick r s)) task = false →
      processTaskQueue r now s = { s with taskQueue := rest }) := by
  constructor
  · exact assignTask_of_cannot
  · intro r now s task rest hq hav hch
    have h1 : s.taskQueue.isEmpty = false := by simp [hq]
    have h2 : (availableAgents s).isEmpty = false := by
      simpa [List.isEmpty_iff] using hav
    unfold processTaskQueue
    rw [h1, h2]
    simp only [Bool.false_eq_true, if_false, hq]
    exact assignTask_of_cannot _ _ _ _ hch

/-- Witness for C2: a queue holding one analysis-type task while only the
data agent is online in the mirror; the dispatch drops the task and changes
nothing else. -/
theorem c2_failed_recheck_drops_witness :
    processTaskQueue 0 5 c2DemoState = { c2DemoState with taskQueue := [] } :=
  c2_failed_recheck_drops.2 0 5 c2DemoState c2Task [] rfl (by decide) (by decide)

/-- C4 counterexample: the claim says a task whose step sequence throws is
marked failed.  At the concrete input (analysis agent, a task with no status
field, a performTask that throws with message boom) the task object returned
by executeTask still has no status field: nothing in executeTask (part_002
lines 385-404) or anywhere else writes failed into a task. -/
theorem c4_task_not_marked_failed :
    (executeTask analysisAgentInit c4Task c4Perform).2.status = none ∧
    (executeTask analysisAgentInit c4Task c4Perform).2.status ≠ some "failed" ∧
    (executeTask analysisAgentInit c4Task c4Perform).2.status ≠ some "Failed" := by
  refine ⟨rfl, ?_, ?_⟩ <;> decide

/-- C4 as amended: when the simulated step sequence throws, executeTask
(part_002 lines 385-404) leaves the agent online with progress 0 and a
trailing error log entry recording the failure, returns the task object
unchanged (its status field is not set to failed), and the event-loop
completion of an execution never touches the pending queue, so the task is
neither retried nor re-enqueued. -/
theorem c4_failure_resets_agent :
    (∀ a t perform a2 msg, perform (startPhase a t) = (a2, some msg) →
      (executeTask a t perform).1.status = "online" ∧
      (executeTask a t perform).1.progress = 0 ∧
      (executeTask a t perform).1.currentTask = none ∧
      (executeTask a t perform).1.logs =
        a2.logs ++ [{ message := "Failed task: " ++ t.name ++ " - " ++ msg,
                      level := "error" }] ∧
      (executeTask a t perform).2 = t) ∧
    (∀ aid ok s, (execFinish aid ok s).taskQueue = s.taskQueue) := by
  constructor
  · intro a t perform a2 msg h
    unfold executeTask
    rw [h]
    simp [agentLog]
  · intro aid ok s
    unfold execFinish
    cases h : (s.agents aid).currentTask <;> simp [updAgent]

/-- Witness for C4: the amended theorem applied at the concrete throwing
input. -/
theorem c4_failure_resets_agent_witness :
    (executeTask analysisAgentInit c4Task c4Perform).1.status = "online" ∧
    (executeTask analysisAgentInit c4Task c4Perform).1.progress = 0 :=
  ⟨(c4_failure_resets_agent.1 analysisAgentInit c4Task c4Perform
      (startPhase analysisAgentInit c4Task) "boom" rfl).1,
   (c4_failure_resets_agent.1 analysisAgentInit c4Task c4Perform
      (startPhase analysisAgentInit c4Task) "boom" rfl).2.1⟩

/-- C9: the status-poll render steps of part_005 overwrite the container
innerHTML with a string computed from the server data alone, so applying
either render step twice with identical data yields exactly the displayed
state of applying it once: no duplicated task rows, no duplicated log
entries. -/
theorem c9_render_idempotent :
    ∀ d c logs c2,
      renderAnalysisTaskList d (renderAnalysisTaskList d c)
        = renderAnalysisTaskList d c ∧
      renderAnalysisLogs logs (renderAnalysisLogs logs c2)
        = renderAnalysisLogs logs c2 := by
  intro d c logs c2
  refine ⟨?_, ?_⟩
  · cases c <;> rfl
  · cases c2 <;> rfl

/-- C1: code bug, evaluated at the failing input.  In the run c1Trace the
data agent was assigned task_1_a, finished it (live status online, progress
100), and a full progress-watcher tick for the task then ran.  The claim says
the tick must remove the task from the active map and mark it completed;
instead the entry is still in activeTasks with its status field untouched and
nothing was ever marked Completed, because trackTaskProgress (part_002 lines
105-152) reads the agentStatus mirror value - a plain status string - and the
property accesses statusInfo.status and statusInfo.progress yield undefined,
so the stop condition of line 123 never fires. -/
theorem c1_watcher_misses_completion :
    (c1Final.agents AgentId.data).status = "online" ∧
    (c1Final.agents AgentId.data).progress = 100 ∧
    (mapGet c1Final.activeTasks "task_1_a").map (fun i => i.task.status)
      = some none ∧
    c1Final.completedTasks = [] := by
  decide

/-- C6: code bug, evaluated at the failing input.  In the run c6Trace the
data agent completed task_1_a, but the watcher never removes completed
entries (see C1), so when a later enqueue-triggered dispatch hands the
again-online data agent the task task_40_d, the active map holds two entries
both owned by the data agent - the claim says an agent owns at most one. -/
theorem c6_agent_owns_two_active_entries :
    (c6Final.activeTasks.filter
        (fun p => decide (p.2.agentId = AgentId.data))).map Prod.fst
      = ["task_1_a", "task_40_d"] := by
  decide

end AgentSim

namespace AgentSim

theorem mem_agentIds (aid : AgentId) : aid ∈ agentIds := by
  cases aid <;> simp [agentIds]

/-- C8 counterexample: a run satisfying the scenario premise on which the
tasks are not served at all.  In c8BadTrace the three analysis-type tasks are
enqueued while the analysis agent - the only online agent supporting analysis
- is online (the data and visualization agents are online too, but lack the
capability).  Every dispatch picks the capability-blind random index 0, the
data agent, whose canHandle re-check fails, so each task is dequeued and
silently dropped: afterwards the queue and active map are empty, nothing was
completed, no agent ever logged a task start, and the analysis agent is still
idle online. -/
theorem c8_fifo_fails_on_blind_pick :
    pendingIds c8BadFinal = [] ∧
    c8BadFinal.activeTasks = [] ∧
    c8BadFinal.completedTasks = [] ∧
    (c8BadFinal.agents AgentId.data).logs = [] ∧
    (c8BadFinal.agents AgentId.analysis).logs = [] ∧
    (c8BadFinal.agents AgentId.visualization).logs = [] ∧
    (c8BadFinal.agents AgentId.report).logs = [] ∧
    (c8BadFinal.agents AgentId.analysis).status = "online" ∧
    (c8BadFinal.agents AgentId.analysis).currentTask = none := by
  decide

/-- C8 as amended: every dispatch cycle dequeues at most the head of the
pending sequence; the periodic monitoring cycle recomputes the eligible set
from the live statuses, so a busy agent is excluded from it; and in the
serving run c8Trace1-4 - where the enqueues happen while the status mirror
lists no online agent and the other agents are busy during the serving
cycles, making the analysis agent the sole eligible agent - the three
analysis tasks are executed one at a time in FIFO order (the agent
currentTask takes the values An1, An2, An3 in order while the later tasks
wait in the queue).  Without those provisos a dequeued task can be silently
dropped (see the counterexample), because selection is capability-blind and
enqueue-triggered dispatch reads a stale mirror. -/
theorem c8_fifo_amended :
    (∀ r now s, (processTaskQueue r now s).taskQueue = s.taskQueue ∨
      (processTaskQueue r now s).taskQueue = s.taskQueue.tail) ∧
    (∀ s aid, aid ∈ availableAgents (updateAgentStatuses s) ↔
      (s.agents aid).status = "online") ∧
    ((c8S1.agents AgentId.analysis).currentTask = some c8TaskAn1 ∧
     pendingIds c8S1 = [c8TaskAn2.id, c8TaskAn3.id] ∧
     (c8S2.agents AgentId.analysis).currentTask = some c8TaskAn1 ∧
     pendingIds c8S2 = [c8TaskAn2.id, c8TaskAn3.id] ∧
     (c8S3.agents AgentId.analysis).currentTask = some c8TaskAn2 ∧
     pendingIds c8S3 = [c8TaskAn3.id] ∧
     (c8S4.agents AgentId.analysis).currentTask = some c8TaskAn3 ∧
     pendingIds c8S4 = []) := by
  refine ⟨?_, ?_, ?_⟩
  · intro r now s
    by_cases h1 : s.taskQueue.isEmpty
    · left
      simp [processTaskQueue, h1]
    · by_cases h2 : (availableAgents s).isEmpty
      · left
        simp [processTaskQueue, h1, h2]
      · right
        simp [processTaskQueue, h1, h2, assignTask_taskQueue]
  · intro s aid
    simp [availableAgents, updateAgentStatuses, List.mem_filter,
      mem_agentIds aid]
  · decide

end AgentSim

namespace AgentSim

theorem map_fst_setInPlace (m : List (String × ActiveInfo)) (k : String)
    (v : ActiveInfo) :
    (m.map (fun p => if p.1 == k then (k, v) else p)).map Prod.fst
      = m.map Prod.fst := by
  induction m with
  | nil => rfl
  | cons p rest ih =>
    simp only [List.map_cons, ih]
    by_cases hp : p.1 = k
    · simp [hp]
    · simp [hp]

theorem map_fst_mapSet_mem (m : List (String × ActiveInfo)) (k : String)
    (v : ActiveInfo) (h : m.any (fun p => p.1 == k) = true) :
    (mapSet m k v).map Prod.fst = m.map Prod.fst := by
  unfold mapSet
  rw [if_pos h]
  exact map_fst_setInPlace m k v

theorem map_fst_mapSet_not_mem (m : List (String × ActiveInfo)) (k : String)
    (v : ActiveInfo) (h : m.any (fun p => p.1 == k) = false) :
    (mapSet m k v).map Prod.fst = m.map Prod.fst ++ [k] := by
  simp [mapSet, h]

theorem any_fst_eq_false {m : List (String × ActiveInfo)} {k : String}
    (h : k ∉ m.map Prod.fst) : m.any (fun p => p.1 == k) = false := by
  cases hb : m.any (fun p => p.1 == k) with
  | false => rfl
  | true =>
    rw [List.any_eq_true] at hb
    obtain ⟨p, hp, hpk⟩ := hb
    exact absurd (List.mem_map.mpr ⟨p, hp, beq_iff_eq.mp hpk⟩) h

theorem any_fst_of_mapGet_some {m : List (String × ActiveInfo)} {k : String}
    {v : ActiveInfo} (h : mapGet m k = some v) :
    m.any (fun p => p.1 == k) = true := by
  unfold mapGet at h
  cases hf : m.find? (fun p => p.1 == k) with
  | none => rw [hf] at h; cases h
  | some p =>
    rw [List.any_eq_true]
    have hpk := List.find?_some hf
    exact ⟨p, List.mem_of_find?_eq_some hf, hpk⟩

theorem mapGet_mem {m : List (String × ActiveInfo)} {k : String}
    {v : ActiveInfo} (h : mapGet m k = some v) : ∃ q ∈ m, q.2 = v := by
  unfold mapGet at h
  cases hf : m.find? (fun p => p.1 == k) with
  | none => rw [hf] at h; cases h
  | some q =>
    rw [hf] at h
    exact ⟨q, List.mem_of_find?_eq_some hf, by simpa using h⟩

theorem mem_mapSet {m : List (String × ActiveInfo)} {k : String}
    {v : ActiveInfo} {p : String × ActiveInfo} (h : p ∈ mapSet m k v) :
    p ∈ m ∨ p = (k, v) := by
  unfold mapSet at h
  split at h
  · rw [List.mem_map] at h
    obtain ⟨q, hq, hqe⟩ := h
    split at hqe
    · right; exact hqe.symm
    · left; rw [← hqe]; exact hq
  · rw [List.mem_append] at h
    rcases h with h | h
    · left; exact h
    · right; simpa using h

theorem watcher_cond_false (x : String) :
    ((getProp (JSVal.str x) "status" == JSVal.str "idle")
      || (getProp (JSVal.str x) "progress" == JSVal.num 100)) = false := by
  simp [getProp]

end AgentSim

namespace AgentSim

theorem nodup_ids_assignTask (aid : AgentId) (t : Task) (now : Nat)
    (s : MgrState)
    (h : (t.id :: (pendingIds s ++ activeKeys s)).Nodup) :
    NodupIds (assignTask aid t now s) := by
  have hnotin : t.id ∉ pendingIds s ++ activeKeys s := (List.nodup_cons.mp h).1
  have hrest : (pendingIds s ++ activeKeys s).Nodup := (List.nodup_cons.mp h).2
  unfold assignTask
  split
  · show NodupIds (executeTaskStart aid t _)
    have hnotact : t.id ∉ activeKeys s := fun hm =>
      hnotin (List.mem_append.mpr (Or.inr hm))
    have hkeys : (mapSet s.activeTasks t.id ⟨aid, t, now⟩).map Prod.fst
        = activeKeys s ++ [t.id] :=
      map_fst_mapSet_not_mem _ _ _ (any_fst_eq_false hnotact)
    unfold NodupIds allIds executeTaskStart updAgent pendingIds activeKeys
    simp only []
    show (s.taskQueue.map Task.id
      ++ (mapSet s.activeTasks t.id ⟨aid, t, now⟩).map Prod.fst).Nodup
    rw [hkeys, ← List.append_assoc]
    have hperm := @List.perm_middle String t.id
      (s.taskQueue.map Task.id ++ s.activeTasks.map Prod.fst) []
    rw [List.append_nil] at hperm
    exact hperm.symm.nodup h
  · exact hrest

theorem nodup_processTaskQueue (r now : Nat) (s : MgrState) (h : NodupIds s) :
    NodupIds (processTaskQueue r now s) := by
  unfold processTaskQueue
  by_cases h1 : s.taskQueue.isEmpty
  · simpa [h1] using h
  · by_cases h2 : (availableAgents s).isEmpty
    · simpa [h1, h2] using h
    · simp only [h1, h2, Bool.false_eq_true, if_false]
      obtain ⟨t, rest, hq⟩ : ∃ t rest, s.taskQueue = t :: rest := by
        cases hq : s.taskQueue with
        | nil => rw [hq] at h1; simp at h1
        | cons a b => exact ⟨a, b, rfl⟩
      apply nodup_ids_assignTask
      rw [hq]
      simp only [List.headD_cons, List.tail_cons]
      have hps : pendingIds { s with taskQueue := rest } = rest.map Task.id := rfl
      have has : activeKeys { s with taskQueue := rest } = activeKeys s := rfl
      rw [hps, has]
      have := h
      unfold NodupIds allIds pendingIds at this
      rw [hq] at this
      simpa using this

theorem allIds_watcherTick (tid : String) (aid : AgentId) (s : MgrState) :
    allIds (watcherTick tid aid s) = allIds s := by
  unfold watcherTick
  cases hg : mapGet s.activeTasks tid with
  | none => rfl
  | some info =>
    by_cases hf : jsFalsy (JSVal.str (s.agentStatus aid))
    · simp only [hf, if_true]
    · simp only [hf, Bool.false_eq_true, if_false,
        watcher_cond_false (s.agentStatus aid)]
      unfold allIds pendingIds activeKeys
      simp only []
      rw [map_fst_mapSet_mem _ _ _ (any_fst_of_mapGet_some hg)]

theorem allIds_execFinish (aid : AgentId) (ok : Bool) (s : MgrState) :
    allIds (execFinish aid ok s) = allIds s := by
  unfold execFinish
  cases (s.agents aid).currentTask <;> rfl

theorem nodup_enqueueTask (tin : TaskInput) (now : Nat) (rand : String)
    (s : MgrState) (h : NodupIds s)
    (hfresh : generateTaskId now rand ∉ allIds s) :
    NodupIds (enqueueTask tin now rand s) := by
  unfold NodupIds allIds pendingIds activeKeys enqueueTask
  simp only [List.map_append]
  show ((pendingIds s ++ [generateTaskId now rand]) ++ activeKeys s).Nodup
  rw [List.append_assoc, List.singleton_append]
  have hperm := @List.perm_middle String (generateTaskId now rand)
    (pendingIds s) (activeKeys s)
  exact hperm.symm.nodup (List.nodup_cons.mpr ⟨hfresh, h⟩)

theorem nodup_stepEv (e : Ev) (s : MgrState) (h : NodupIds s)
    (hf : freshOk e s = true) : NodupIds (stepEv e s) := by
  cases e with
  | add tin now rand r =>
    apply nodup_processTaskQueue
    apply nodup_enqueueTask tin now rand s h
    simpa [freshOk] using hf
  | tick r now => exact nodup_processTaskQueue r now _ h
  | watch tid aid =>
    unfold NodupIds
    rw [show allIds (stepEv (Ev.watch tid aid) s) = allIds s from
      allIds_watcherTick tid aid s]
    exact h
  | finish aid ok =>
    unfold NodupIds
    rw [show allIds (stepEv (Ev.finish aid ok) s) = allIds s from
      allIds_execFinish aid ok s]
    exact h

theorem nodup_runEvents : ∀ (evs : List Ev) (s : MgrState), NodupIds s →
    freshRun s evs = true → NodupIds (runEvents evs s)
  | [], _, h, _ => h
  | e :: rest, s, h, hf => by
    simp only [freshRun, Bool.and_eq_true] at hf
    exact nodup_runEvents rest (stepEv e s) (nodup_stepEv e s h hf.1) hf.2

/-- C5: in every state produced by a run of event-loop callbacks from the
post-constructor state in which each addTask call generates an id unused at
that moment (the uniqueness the spec ascribes to the time-plus-random ids),
no task id is simultaneously in the pending queue and in the active map: a
dispatch cycle moves the head id from the queue into the map in one callback
(part_002 lines 58-91), and no other operation copies an id from one
container into the other. -/
theorem c5_pending_active_disjoint :
    ∀ evs, freshRun baseState evs = true →
    ∀ i, ¬ (i ∈ pendingIds (runEvents evs baseState) ∧
            i ∈ activeKeys (runEvents evs baseState)) := by
  intro evs hf i hi
  have hn : NodupIds (runEvents evs baseState) :=
    nodup_runEvents evs baseState List.nodup_nil hf
  exact (List.nodup_append.mp hn).2.2 hi.1 hi.2

/-- Witness for C5: the three constructor enqueues generate fresh
ids, and afterwards task_1_a is not in both containers. -/
theorem c5_pending_active_disjoint_witness :
    ¬ ("task_1_a" ∈ pendingIds (runEvents initAdds baseState) ∧
       "task_1_a" ∈ activeKeys (runEvents initAdds baseState)) :=
  c5_pending_active_disjoint initAdds (by decide) "task_1_a"

end AgentSim

namespace AgentSim

/-- Inductive invariant behind C10: the report agent stays offline with no
pending execution, capabilities are the constructor capabilities, and no
active entry carries a report_generation task. -/
def InvReport (s : MgrState) : Prop :=
  (s.agents AgentId.report).status = "offline" ∧
  (s.agents AgentId.report).currentTask = none ∧
  (∀ aid, (s.agents aid).capabilities = (initAgents aid).capabilities) ∧
  (∀ p ∈ s.activeTasks, p.2.task.type ≠ "report_generation")

theorem rg_only_report (aid : AgentId)
    (h : "report_generation" ∈ (initAgents aid).capabilities) :
    aid = AgentId.report := by
  cases aid
  · exact absurd h (by decide)
  · exact absurd h (by decide)
  · exact absurd h (by decide)
  · rfl

theorem canHandle_parts {a : Agent} {t : Task}
    (h : canHandleTask a t = true) :
    t.type ∈ a.capabilities ∧ a.status = "online" := by
  simpa [canHandleTask] using h

theorem invReport_assignTask (aid : AgentId) (t : Task) (now : Nat)
    (s : MgrState) (h : InvReport s) : InvReport (assignTask aid t now s) := by
  obtain ⟨h1, h2, h3, h4⟩ := h
  unfold assignTask
  split
  case isTrue hch =>
    have hparts := canHandle_parts hch
    have hne : aid ≠ AgentId.report := by
      intro he
      rw [he, h1] at hparts
      exact absurd hparts.2 (by decide)
    have hrep : ∀ f : Agent → Agent,
        (fun x => if x = aid then f (s.agents x) else s.agents x)
          AgentId.report = s.agents AgentId.report := by
      intro f
      simp only []
      rw [if_neg (fun hh => hne hh.symm)]
    refine ⟨?_, ?_, ?_, ?_⟩
    · show (if AgentId.report = aid then _ else s.agents AgentId.report).status
        = "offline"
      rw [if_neg (fun hh => hne hh.symm)]
      exact h1
    · show (if AgentId.report = aid then _ else s.agents AgentId.report).currentTask
        = none
      rw [if_neg (fun hh => hne hh.symm)]
      exact h2
    · intro x
      show (if x = aid then _ else s.agents x).capabilities
        = (initAgents x).capabilities
      by_cases hx : x = aid
      · rw [if_pos hx, hx]
        show (startPhase (s.agents aid) t).capabilities
          = (initAgents aid).capabilities
        unfold startPhase agentLog
        exact h3 aid
      · rw [if_neg hx]
        exact h3 x
    · intro p hp
      rcases mem_mapSet hp with hin | heq
      · exact h4 p hin
      · rw [heq]
        intro habs
        have htype : t.type = "report_generation" := habs
        have hmem : "report_generation" ∈ (s.agents aid).capabilities := by
          rw [← htype]
          exact hparts.1
        rw [h3 aid] at hmem
        exact hne (rg_only_report aid hmem)
  case isFalse => exact ⟨h1, h2, h3, h4⟩

theorem invReport_processTaskQueue (r now : Nat) (s : MgrState)
    (h : InvReport s) : InvReport (processTaskQueue r now s) := by
  unfold processTaskQueue
  by_cases h1 : s.taskQueue.isEmpty
  · simpa [h1] using h
  · by_cases h2 : (availableAgents s).isEmpty
    · simpa [h1, h2] using h
    · simp only [h1, h2, Bool.false_eq_true, if_false]
      exact invReport_assignTask _ _ _ _ h

theorem invReport_execFinish (aid : AgentId) (ok : Bool) (s : MgrState)
    (h : InvReport s) : InvReport (execFinish aid ok s) := by
  obtain ⟨h1, h2, h3, h4⟩ := h
  unfold execFinish
  cases hc : (s.agents aid).currentTask with
  | none => exact ⟨h1, h2, h3, h4⟩
  | some t =>
    have hne : aid ≠ AgentId.report := by
      intro he
      rw [he, h2] at hc
      cases hc
    refine ⟨?_, ?_, ?_, h4⟩
    · show (if AgentId.report = aid then _ else s.agents AgentId.report).status
        = "offline"
      rw [if_neg (fun hh => hne hh.symm)]
      exact h1
    · show (if AgentId.report = aid then _ else s.agents AgentId.report).currentTask
        = none
      rw [if_neg (fun hh => hne hh.symm)]
      exact h2
    · intro x
      show (if x = aid then _ else s.agents x).capabilities
        = (initAgents x).capabilities
      by_cases hx : x = aid
      · rw [if_pos hx, hx]
        cases ok <;> exact h3 aid
      · rw [if_neg hx]
        exact h3 x

theorem invReport_watcherTick (tid : String) (aid : AgentId) (s : MgrState)
    (h : InvReport s) : InvReport (watcherTick tid aid s) := by
  obtain ⟨h1, h2, h3, h4⟩ := h
  unfold watcherTick
  cases hg : mapGet s.activeTasks tid with
  | none => exact ⟨h1, h2, h3, h4⟩
  | some info =>
    by_cases hf : jsFalsy (JSVal.str (s.agentStatus aid))
    · simp only [hf, if_true]
      exact ⟨h1, h2, h3, h4⟩
    · simp only [hf, Bool.false_eq_true, if_false,
        watcher_cond_false (s.agentStatus aid)]
      refine ⟨h1, h2, h3, ?_⟩
      intro p hp
      rcases mem_mapSet hp with hin | heq
      · exact h4 p hin
      · obtain ⟨q, hq, hqi⟩ := mapGet_mem hg
        rw [heq]
        intro habs
        apply h4 q hq
        rw [hqi]
        exact habs

end AgentSim

namespace AgentSim

theorem invReport_stepEv (e : Ev) (s : MgrState) (h : InvReport s) :
    InvReport (stepEv e s) := by
  cases e with
  | add tin now rand r => exact invReport_processTaskQueue r now _ h
  | tick r now => exact invReport_processTaskQueue r now _ h
  | watch tid aid => exact invReport_watcherTick tid aid s h
  | finish aid ok => exact invReport_execFinish aid ok s h

theorem invReport_runEvents : ∀ (evs : List Ev) (s : MgrState),
    InvReport s → InvReport (runEvents evs s)
  | [], _, h => h
  | e :: rest, s, h =>
    invReport_runEvents rest (stepEv e s) (invReport_stepEv e s h)

theorem invReport_base : InvReport baseState := by
  refine ⟨rfl, rfl, fun aid => rfl, ?_⟩
  intro p hp
  simp [baseState] at hp

/-- C10: in every reachable coordinator state the ReportAgent still has the
offline status it was constructed with (part_002 lines 608-612): the only
writes to an agent status happen inside an execution that the canHandleTask
guard of assignTask lets through, and that guard demands online.
Consequently canHandleTask is false for the report agent against every task,
and no entry of the active map ever carries a report_generation task: such a
task is dropped by a dispatch attempt or stays queued, but is never
assigned. -/
theorem c10_report_never_handles :
    ∀ s, Reachable s →
      (s.agents AgentId.report).status = "offline" ∧
      (∀ t, canHandleTask (s.agents AgentId.report) t = false) ∧
      (∀ p ∈ s.activeTasks, p.2.task.type ≠ "report_generation") := by
  intro s hs
  obtain ⟨evs, hrun⟩ := hs
  have hinv : InvReport s := hrun ▸ invReport_runEvents evs baseState invReport_base
  obtain ⟨h1, _, _, h4⟩ := hinv
  refine ⟨h1, ?_, h4⟩
  intro t
  simp [canHandleTask, h1]

/-- Witness for C10: a concrete reachable state (constructor enqueues plus
one monitoring tick) in which the report agent cannot handle the Generate
Final Report task. -/
theorem c10_report_never_handles_witness :
    canHandleTask ((runEvents c10DemoEvs baseState).agents AgentId.report)
      c10Task = false :=
  (c10_report_never_handles (runEvents c10DemoEvs baseState)
    ⟨c10DemoEvs, rfl⟩).2.1 c10Task

/-- C7 counterexample: the claim covers the AgentManager.addTask of
src/frontend/js/agents.js (lines 88-96) as well, but that copy triggers no
dispatch attempt in the same call.  In c7State the mirror lists the data
agent online and the enqueued data_processing task could be handled by the
agent the dispatch would pick, yet after the frontend addTask the task is
still queued and the active map is empty; the part_002 addTask on the same
input assigns the task within the call. -/
theorem c7_frontend_no_immediate_dispatch :
    (frontendAddTask c7Tin 100 "z" c7State).activeTasks = [] ∧
    pendingIds (frontendAddTask c7Tin 100 "z" c7State)
      = [generateTaskId 100 "z"] ∧
    availableAgents (frontendAddTask c7Tin 100 "z" c7State) ≠ [] ∧
    canHandleTask
      ((frontendAddTask c7Tin 100 "z" c7State).agents
        (dispatchPick 0 (frontendAddTask c7Tin 100 "z" c7State)))
      (mkTask c7Tin (generateTaskId 100 "z")) = true ∧
    (addTask c7Tin 100 "z" 0 c7State).activeTasks ≠ [] ∧
    pendingIds (addTask c7Tin 100 "z" 0 c7State) = [] := by
  decide

/-- C7 as amended: the part_002 addTask (lines 93-103) assigns the id
task_ + Date.now() + _ + random suffix, appends the task to the end of the
pending sequence, and runs a dispatch cycle within the same call; the
frontend/js/agents.js copy (lines 88-96) assigns the same id and appends the
same way but performs no dispatch in the call - the queue, the agents and the
mirror are otherwise untouched and dispatch waits for the next periodic
tick. -/
theorem c7_enqueue_appends_and_dispatches :
    (∀ tin now rand r s, addTask tin now rand r s
      = processTaskQueue r now (enqueueTask tin now rand s)) ∧
    (∀ tin now rand s, (enqueueTask tin now rand s).taskQueue
      = s.taskQueue ++ [mkTask tin ("task_" ++ toString now ++ "_" ++ rand)]) ∧
    (∀ tin now rand s,
      (frontendAddTask tin now rand s).taskQueue
        = s.taskQueue ++ [mkTask tin (generateTaskId now rand)] ∧
      (frontendAddTask tin now rand s).activeTasks = s.activeTasks ∧
      (frontendAddTask tin now rand s).agents = s.agents ∧
      (frontendAddTask tin now rand s).agentStatus = s.agentStatus) :=
  ⟨fun _ _ _ _ _ => rfl, fun _ _ _ _ => rfl,
   fun _ _ _ _ => ⟨rfl, rfl, rfl, rfl⟩⟩

end AgentSim
